import Mathlib

/-!
Verification of the DLI (Donor Lymphocyte Infusion) calculator.

The source is a single Python file whose domain logic is the pure function
`calculate_dli(dose, recipient_weight, donor_tlc, lymph_percent, donor_hct,
method)` together with the constant method table `METHODS`.  We embed the
numeric core shallowly over `ℚ` (the Python program computes with floats, and
every literal appearing in the program is an exact decimal, so the rational
embedding reproduces its real-valued semantics exactly).  Python's
`ZeroDivisionError` on a vanishing denominator is embedded as `Option.none`.
-/

/-- The three collection methods registered in the `METHODS` table. -/
inductive Method where
  | wholeBlood
  | haemonetics
  | spectraOptia
deriving DecidableEq

/-- The tunable instrument parameter ranges a method may declare
(`METHODS[...]["params"]` in the source): `flow_rate`, `acd_ratio` and
`plasma_removal`, each an inclusive `(min, max)` pair. -/
structure ParamRanges where
  flow_rate : ℚ × ℚ
  acd_ratio : ℚ × ℚ
  plasma_removal : ℚ × ℚ
deriving DecidableEq

/-- One entry of the `METHODS` table: efficiency, volume factor, hematocrit
sensitivity (`hct_impact`), RBC contamination baseline (`rbc_contam`), the
method-specific CD3% estimation function (`cd3_estimate`), and the optional
instrument parameter ranges (`params`; `none` embeds the empty dict of the
Whole Blood entry). -/
structure MethodData where
  efficiency : ℚ
  volume_factor : ℚ
  hct_impact : ℚ
  rbc_contam : ℚ
  cd3_estimate : ℚ → ℚ → ℚ
  params : Option ParamRanges

/-- The `METHODS` constant of the source, lines 6-39. -/
def METHODS : Method → MethodData
  | Method.wholeBlood =>
    { efficiency := 0.25
      volume_factor := 1.0
      hct_impact := 0.2
      rbc_contam := 50.0
      cd3_estimate := fun tlc lymph => 60 + 10 * (tlc / 15) + 5 * (lymph / 50)
      params := none }
  | Method.haemonetics =>
    { efficiency := 0.85
      volume_factor := 0.3
      hct_impact := 0.6
      rbc_contam := 15.0
      cd3_estimate := fun tlc lymph => 70 + 15 * (tlc / 15) + 10 * (lymph / 50)
      params := some
        { flow_rate := (40, 60)
          acd_ratio := (11, 13)
          plasma_removal := (5, 15) } }
  | Method.spectraOptia =>
    { efficiency := 0.95
      volume_factor := 0.2
      hct_impact := 0.4
      rbc_contam := 10.0
      cd3_estimate := fun tlc lymph => 75 + 20 * (tlc / 15) + 15 * (lymph / 50)
      params := some
        { flow_rate := (50, 70)
          acd_ratio := (12, 14)
          plasma_removal := (5, 10) } }

/-- The instrument parameter recommendations emitted for non-whole-blood
methods (the `params` dict built in source lines 73-79).  The source formats
each value into a string; we keep the numeric value that is formatted.
`acd_ratio` is the denominator of the reported "1:n" ratio, an integer because
the source applies Python's `int(...)` truncation (its argument is positive
here, so truncation coincides with `Int.floor`). -/
structure InstrumentParams where
  flow_rate : ℚ
  acd_ratio : ℤ
  plasma_removal : ℚ
  hct_efficiency : ℚ
  estimated_cd3 : ℚ
deriving DecidableEq

/-- The result tuple `(volume, rbc_contamination, params, cd3_percent)` of
`calculate_dli` (source line 80). -/
structure DliResult where
  volume : ℚ
  rbc_contamination : ℚ
  params : Option InstrumentParams
  cd3_percent : ℚ
deriving DecidableEq

/-- Source lines 51-52: the method's CD3% estimate, clamped into `[50, 95]`
(`min(max(cd3_percent, 50), 95)`). -/
def cd3_resolved (m : Method) (donor_tlc lymph_percent : ℚ) : ℚ :=
  min (max ((METHODS m).cd3_estimate donor_tlc lymph_percent) 50) 95

/-- Source line 55: effective CD3+ concentration
`donor_tlc * 1e3 * (lymph_percent/100) * (cd3_percent/100)`. -/
def cd3_conc (donor_tlc lymph_percent cd3_percent : ℚ) : ℚ :=
  donor_tlc * 1000 * (lymph_percent / 100) * (cd3_percent / 100)

/-- Source line 58: hematocrit efficiency correction
`1 - hct_impact * (donor_hct - 40)/40`. -/
def hct_efficiency (m : Method) (donor_hct : ℚ) : ℚ :=
  1 - (METHODS m).hct_impact * (donor_hct - 40) / 40

/-- The full denominator of the volume formula on source line 61:
`cd3_conc * efficiency * hct_efficiency`.  Python raises `ZeroDivisionError`
exactly when this is zero. -/
def dli_denom (m : Method) (donor_tlc lymph_percent donor_hct : ℚ) : ℚ :=
  cd3_conc donor_tlc lymph_percent (cd3_resolved m donor_tlc lymph_percent) *
    (METHODS m).efficiency * hct_efficiency m donor_hct

/-- Source line 61: the volume formula
`(required_cd3 / (cd3_conc * efficiency * hct_efficiency)) * volume_factor / 1e3`. -/
def dli_volume (m : Method) (dose recipient_weight donor_tlc lymph_percent donor_hct : ℚ) : ℚ :=
  dose * recipient_weight / dli_denom m donor_tlc lymph_percent donor_hct *
    (METHODS m).volume_factor / 1000

/-- Source lines 66-79: the instrument parameter dict.  It is empty (`none`)
for Whole Blood; otherwise the flow rate is the lymphocyte-interpolated base
flow, derated by the hematocrit factor and clamped into the declared range,
the ACD denominator is `int(midpoint + (1 if hct > 45 else 0))`, and plasma
removal is `plasma_min + (5 if hct > 45 else 0)`. -/
def dli_params (m : Method) (lymph_percent donor_hct hctEff cd3 : ℚ) : Option InstrumentParams :=
  if m = Method.wholeBlood then none
  else
    match (METHODS m).params with
    | none => none
    | some pr =>
      let base_flow := pr.flow_rate.1 +
        (pr.flow_rate.2 - pr.flow_rate.1) * (lymph_percent / 100)
      let flow0 := base_flow * (1 - (0.2 : ℚ) * (donor_hct - 40) / 40)
      some
        { flow_rate := max pr.flow_rate.1 (min pr.flow_rate.2 flow0)
          acd_ratio := Int.floor ((pr.acd_ratio.1 + pr.acd_ratio.2) / 2 +
            (if donor_hct > 45 then (1 : ℚ) else 0))
          plasma_removal := pr.plasma_removal.1 +
            (if donor_hct > 45 then (5 : ℚ) else 0)
          hct_efficiency := hctEff
          estimated_cd3 := cd3 }

/-- Source lines 46-80, `calculate_dli`.  `dose` is in absolute cells (the UI
caller multiplies the per-kg slider value by `1e6` before calling, source
line 113), so `volume` comes out in mL.  `none` embeds the
`ZeroDivisionError` Python raises when the line-61 denominator vanishes. -/
def calculate_dli (dose recipient_weight donor_tlc lymph_percent donor_hct : ℚ)
    (m : Method) : Option DliResult :=
  let cd3_percent := cd3_resolved m donor_tlc lymph_percent
  let hctEff := hct_efficiency m donor_hct
  if dli_denom m donor_tlc lymph_percent donor_hct = 0 then none
  else
    let volume := dli_volume m dose recipient_weight donor_tlc lymph_percent donor_hct
    let rbc_contamination := (METHODS m).rbc_contam * (donor_hct / 40) * (volume / 0.5)
    some
      { volume := volume
        rbc_contamination := rbc_contamination
        params := dli_params m lymph_percent donor_hct hctEff cd3_percent
        cd3_percent := cd3_percent }

/-- Observation: the volume component of a `calculate_dli` result. -/
def volumeOf (o : Option DliResult) : Option ℚ :=
  o.map DliResult.volume

/-- Observation: the RBC-contamination component of a `calculate_dli` result. -/
def rbcOf (o : Option DliResult) : Option ℚ :=
  o.map DliResult.rbc_contamination

/-- Observation: the resolved CD3% component of a `calculate_dli` result. -/
def cd3Of (o : Option DliResult) : Option ℚ :=
  o.map DliResult.cd3_percent

/-- Observation: the instrument-parameter component of a `calculate_dli` result. -/
def paramsOf (o : Option DliResult) : Option InstrumentParams :=
  o.bind DliResult.params

/-! ### Spec-side formulas, for comparison with the source

Each of the following definitions transcribes a formula of the specification
(not of the source) and is used only to compare the two. -/

/-- The specification's flow-rate formula as the claim states it:
`clamp(flowMin + (flowMax-flowMin)*(lymphocytePercent/100)
* (1 - 0.2*(donorHematocritPercent-40)/40), flowMin, flowMax)`,
where the hematocrit derating factor multiplies only the lymphocyte-scaled
span above `flowMin`. -/
def specFlowRate (flowMin flowMax lymph hct : ℚ) : ℚ :=
  max flowMin (min flowMax
    (flowMin + (flowMax - flowMin) * (lymph / 100) * (1 - (0.2 : ℚ) * (hct - 40) / 40)))

/-- The flow-rate formula the source actually computes (lines 69-71): the
hematocrit derating factor multiplies the whole lymphocyte-interpolated base
flow, `flowMin` included, before clamping. -/
def amendedFlowRate (flowMin flowMax lymph hct : ℚ) : ℚ :=
  max flowMin (min flowMax
    ((flowMin + (flowMax - flowMin) * (lymph / 100)) * (1 - (0.2 : ℚ) * (hct - 40) / 40)))

/-- The specification's RBC-contamination formula (§4.2 step 6):
`rbcContaminationBase * (donorHematocritPercent/40) * (requiredVolumeMl/500)`,
with the volume expressed in milliliters. -/
def specRbcContamination (base hct volMl : ℚ) : ℚ :=
  base * (hct / 40) * (volMl / 500)

/-- The specification's linear CD3% estimation model (§4.1):
`base + tlcWeight*(donorTlc/15) + lymphWeight*(lymphocytePercent/50)` for a
method-specific `(base, tlcWeight, lymphWeight)` triple. -/
def specCd3Linear (base tlcWeight lymphWeight tlc lymph : ℚ) : ℚ :=
  base + tlcWeight * (tlc / 15) + lymphWeight * (lymph / 50)

/-- The `(base, tlcWeight, lymphWeight)` triple of each method's CD3% model
as the specification describes it. -/
def cd3Triple : Method → ℚ × ℚ × ℚ
  | Method.wholeBlood => (60, 10, 5)
  | Method.haemonetics => (70, 15, 10)
  | Method.spectraOptia => (75, 20, 15)

/-! ### The Dose Engine of the specification

The repository carries several snapshots of the calculator; the one under
`src/` estimates CD3% internally and has no input for a measured CD3%
value, while the specification's Dose Engine (§4.2) supports a directly
supplied `cd3Percent` and the two degenerate-input failures.  The engine is
therefore modelled here from the specification and compared against the
`src/` snapshot where they overlap. -/

/-- The failure kinds of the specification's Dose Engine that can arise for
a registered method (§7). -/
inductive DoseError where
  | degenerateConcentration
  | degenerateEfficiency
deriving DecidableEq

/-- Instrument parameters as the specification's Dose Engine reports them
(§4.2 step 7).  The catalog declares no `interfacePosition` range for any
method, so that optional parameter never appears. -/
structure SpecInstrumentParams where
  flowRate : ℚ
  acdRatioDenominator : ℤ
  plasmaRemovalMl : ℚ
  hematocritEfficiency : ℚ
deriving DecidableEq

/-- `DoseResult` of the specification (§3), extended with the two named
intermediates of §4.2 (`requiredCd3Cells`, in ×10⁶ cells, and
`effectiveConcentration`) that the scenario claims quote. -/
structure DoseResult where
  requiredCd3Cells : ℚ
  effectiveConcentration : ℚ
  requiredVolumeMl : ℚ
  rbcContaminationEstimate : ℚ
  resolvedCd3Percent : ℚ
  instrumentParameters : Option SpecInstrumentParams
deriving DecidableEq

/-- Modelled from the spec: step 1 of `computeDose` (§4.2) — resolve
`cd3Percent`: use the supplied value if present and in `[0,100]`, otherwise
the Catalog estimator's value clamped to `[50, 95]`.  `est` is the Catalog
estimator for the chosen method, passed explicitly so that its
non-invocation on the supplied path is expressible. -/
def resolveCd3 (est : ℚ → ℚ → ℚ) (donorTlc lymphocytePercent : ℚ) :
    Option ℚ → ℚ
  | some c =>
      if 0 ≤ c ∧ c ≤ 100 then c
      else min (max (est donorTlc lymphocytePercent) 50) 95
  | none => min (max (est donorTlc lymphocytePercent) 50) 95

/-- Modelled from the spec: steps 2-8 of `computeDose` (§4.2), applied to an
already-resolved `cd3` percentage. -/
def computeDoseCore (cd3 : ℚ)
    (doseCellsPerKg recipientWeightKg donorTlc lymphocytePercent
      donorHematocritPercent : ℚ) (m : Method) :
    Except DoseError DoseResult :=
  let md := METHODS m
  let requiredCd3Cells := doseCellsPerKg * recipientWeightKg
  let effectiveConcentration :=
    donorTlc * 1000 * (lymphocytePercent / 100) * (cd3 / 100)
  if effectiveConcentration ≤ 0 then Except.error DoseError.degenerateConcentration
  else
    let hematocritEfficiency :=
      1 - md.hct_impact * (donorHematocritPercent - 40) / 40
    if md.efficiency * hematocritEfficiency ≤ 0 then
      Except.error DoseError.degenerateEfficiency
    else
      let requiredVolumeMl :=
        requiredCd3Cells * 1000000 /
          (effectiveConcentration * md.efficiency * hematocritEfficiency) *
          md.volume_factor / 1000
      let rbcContamination :=
        specRbcContamination md.rbc_contam donorHematocritPercent requiredVolumeMl
      let instrumentParameters : Option SpecInstrumentParams :=
        match md.params with
        | none => none
        | some pr =>
          some
            { flowRate :=
                specFlowRate pr.flow_rate.1 pr.flow_rate.2 lymphocytePercent
                  donorHematocritPercent
              acdRatioDenominator :=
                round ((pr.acd_ratio.1 + pr.acd_ratio.2) / 2) +
                  (if donorHematocritPercent > 45 then 1 else 0)
              plasmaRemovalMl :=
                pr.plasma_removal.1 +
                  (if donorHematocritPercent > 45 then (5 : ℚ) else 0)
              hematocritEfficiency := hematocritEfficiency }
      Except.ok
        { requiredCd3Cells := requiredCd3Cells
          effectiveConcentration := effectiveConcentration
          requiredVolumeMl := requiredVolumeMl
          rbcContaminationEstimate := rbcContamination
          resolvedCd3Percent := cd3
          instrumentParameters := instrumentParameters }

/-- Modelled from the spec: `computeDose` (§4.2).  The repository snapshot
with an explicit measured-CD3% input and the degenerate-input guards is not
under `src/`, so this definition follows the specification's algorithm:
resolve `cd3Percent` (step 1, `resolveCd3`), fail with
`DegenerateConcentration` when the effective concentration is ≤ 0 and with
`DegenerateEfficiency` when `efficiency * hematocritEfficiency ≤ 0`, and
otherwise apply the §4.2 step 5-7 formulas (`computeDoseCore`).
`doseCellsPerKg` is in ×10⁶ cells/kg; step 5 converts `requiredCd3Cells`
(×10⁶) to absolute cells so that, as §4.2 requires, the stated scale
constants yield milliliters matching the reference magnitudes of §8. -/
def computeDose (est : ℚ → ℚ → ℚ)
    (doseCellsPerKg recipientWeightKg donorTlc lymphocytePercent : ℚ)
    (cd3Supplied : Option ℚ) (donorHematocritPercent : ℚ) (m : Method) :
    Except DoseError DoseResult :=
  computeDoseCore (resolveCd3 est donorTlc lymphocytePercent cd3Supplied)
    doseCellsPerKg recipientWeightKg donorTlc lymphocytePercent
    donorHematocritPercent m

/-! ### General lemmas about the embedding -/

theorem cd3_resolved_mem (m : Method) (t l : ℚ) :
    50 ≤ cd3_resolved m t l ∧ cd3_resolved m t l ≤ 95 :=
  ⟨le_min (le_max_right _ _) (by norm_num), min_le_right _ _⟩

theorem clamp_mem {a b x : ℚ} (hab : a ≤ b) :
    a ≤ max a (min b x) ∧ max a (min b x) ≤ b :=
  ⟨le_max_left _ _, max_le hab (min_le_left _ _)⟩

theorem efficiency_pos (m : Method) : 0 < (METHODS m).efficiency := by
  cases m <;> norm_num [METHODS]

theorem volume_factor_pos (m : Method) : 0 < (METHODS m).volume_factor := by
  cases m <;> norm_num [METHODS]

theorem cd3_conc_pos {t l c : ℚ} (ht : 0 < t) (hl : 0 < l) (hc : 0 < c) :
    0 < cd3_conc t l c := by
  unfold cd3_conc; positivity

theorem cd3_resolved_pos (m : Method) (t l : ℚ) : 0 < cd3_resolved m t l :=
  lt_of_lt_of_le (by norm_num) (cd3_resolved_mem m t l).1

theorem dli_denom_pos {m : Method} {t l h : ℚ} (ht : 0 < t) (hl : 0 < l)
    (hh : 0 < hct_efficiency m h) : 0 < dli_denom m t l h :=
  mul_pos
    (mul_pos (cd3_conc_pos ht hl (cd3_resolved_pos m t l)) (efficiency_pos m))
    hh

theorem calculate_dli_some {m : Method} (d w : ℚ) {t l h : ℚ}
    (hD : dli_denom m t l h ≠ 0) :
    calculate_dli d w t l h m = some
      { volume := dli_volume m d w t l h
        rbc_contamination := (METHODS m).rbc_contam * (h / 40) *
          (dli_volume m d w t l h / 0.5)
        params := dli_params m l h (hct_efficiency m h) (cd3_resolved m t l)
        cd3_percent := cd3_resolved m t l } := by
  simp [calculate_dli, hD]

theorem dli_volume_factored (m : Method) (d w t l h : ℚ) :
    dli_volume m d w t l h =
      d * (w * (METHODS m).volume_factor / (dli_denom m t l h * 1000)) := by
  unfold dli_volume; ring

theorem computeDoseCore_resolved {cd3 d w t l hct : ℚ} {m : Method}
    {r : DoseResult} (hr : computeDoseCore cd3 d w t l hct m = Except.ok r) :
    r.resolvedCd3Percent = cd3 := by
  simp only [computeDoseCore] at hr
  split at hr
  · exact absurd hr (by simp)
  · split at hr
    · exact absurd hr (by simp)
    · injection hr with h
      rw [← h]

/-! ### The claims -/

/-- C1: for the request method = Whole Blood, dose = 10 (×10⁶/kg),
weight = 70 kg, TLC = 8.0, lymphocyte% = 30, supplied cd3% = 70,
hematocrit = 40, the engine computes `requiredCd3Cells = 700` (×10⁶),
`effectiveConcentration = 1680`, `requiredVolumeMl = 5000/3 ≈ 1666.7` mL,
and returns no instrument parameters — for any Catalog estimator `est`,
since the supplied cd3% is used. -/
theorem C1_scenario_wholeBlood (est : ℚ → ℚ → ℚ) :
    computeDose est 10 70 8 30 (some 70) 40 Method.wholeBlood =
      Except.ok
        { requiredCd3Cells := 700
          effectiveConcentration := 1680
          requiredVolumeMl := 5000 / 3
          rbcContaminationEstimate := 500 / 3
          resolvedCd3Percent := 70
          instrumentParameters := none } ∧
    |(5000 / 3 : ℚ) - 1666.7| < 0.1 := by
  constructor
  · norm_num [computeDose, computeDoseCore, resolveCd3, METHODS,
      specRbcContamination]
  · rw [abs_sub_lt_iff]
    norm_num

/-- C2: at method Haemonetics with `donor_hct = 120`, the combined factor
`efficiency * hct_efficiency = 0.85 * (-0.2)` is ≤ 0, yet the source's
`calculate_dli` silently returns the negative volume `-31250/51 ≈ -612.7` mL
instead of failing; the specification's engine fails with
`DegenerateEfficiency` there. -/
theorem C2_negative_volume :
    (METHODS Method.haemonetics).efficiency *
      hct_efficiency Method.haemonetics 120 ≤ 0 ∧
    volumeOf (calculate_dli 10000000 70 8 30 120 Method.haemonetics) =
      some (-31250 / 51) ∧
    (-31250 / 51 : ℚ) < 0 ∧
    computeDose (METHODS Method.haemonetics).cd3_estimate 10 70 8 30 none 120
      Method.haemonetics = Except.error DoseError.degenerateEfficiency := by
  refine ⟨by norm_num [METHODS, hct_efficiency], ?_, by norm_num, ?_⟩
  · norm_num [volumeOf, calculate_dli, dli_denom, dli_volume, cd3_conc,
      cd3_resolved, hct_efficiency, METHODS]
  · norm_num [computeDose, computeDoseCore, resolveCd3, METHODS]

/-- C3: with `lymph_percent = 0` the effective CD3+ concentration of source
line 55 is zero, and the source's `calculate_dli` divides by zero (Python's
`ZeroDivisionError`, embedded as `none`) instead of failing with
`DegenerateConcentration` as the specification's engine does. -/
theorem C3_division_by_zero :
    cd3_conc 8 0 (cd3_resolved Method.wholeBlood 8 0) = 0 ∧
    calculate_dli 10000000 70 8 0 40 Method.wholeBlood = none ∧
    computeDose (METHODS Method.wholeBlood).cd3_estimate 10 70 8 0 none 40
      Method.wholeBlood = Except.error DoseError.degenerateConcentration := by
  refine ⟨by norm_num [cd3_conc], ?_, ?_⟩
  · norm_num [calculate_dli, dli_denom, cd3_conc, cd3_resolved,
      hct_efficiency, METHODS]
  · norm_num [computeDose, computeDoseCore, resolveCd3, METHODS]

/-- C4: a supplied measured CD3% in `[0,100]` is authoritative — the engine's
result does not depend on the Catalog estimator at all and the resolved
percentage equals the supplied value; when no value is supplied, the engine
resolves the method estimator's value clamped into `[50, 95]`. -/
theorem C4_supplied_cd3_authoritative (est₁ est₂ : ℚ → ℚ → ℚ)
    (d w t l hct c : ℚ) (m : Method) (h0 : 0 ≤ c) (h100 : c ≤ 100) :
    computeDose est₁ d w t l (some c) hct m =
      computeDose est₂ d w t l (some c) hct m ∧
    (∀ r : DoseResult, computeDose est₁ d w t l (some c) hct m = Except.ok r →
      r.resolvedCd3Percent = c) ∧
    (∀ r : DoseResult,
      computeDose (METHODS m).cd3_estimate d w t l none hct m = Except.ok r →
      r.resolvedCd3Percent =
        min (max ((METHODS m).cd3_estimate t l) 50) 95) := by
  have hres : ∀ est : ℚ → ℚ → ℚ, resolveCd3 est t l (some c) = c := by
    intro est
    simp [resolveCd3, h0, h100]
  refine ⟨?_, ?_, ?_⟩
  · unfold computeDose
    rw [hres est₁, hres est₂]
  · intro r hr
    unfold computeDose at hr
    rw [hres est₁] at hr
    exact computeDoseCore_resolved hr
  · intro r hr
    unfold computeDose at hr
    exact computeDoseCore_resolved hr

/-- Witness for C4 at a concrete input: with the supplied value 70 the
results under two different estimators coincide. -/
theorem C4_witness :
    computeDose (METHODS Method.wholeBlood).cd3_estimate 10 70 8 30 (some 70)
        40 Method.wholeBlood =
      computeDose (METHODS Method.haemonetics).cd3_estimate 10 70 8 30
        (some 70) 40 Method.wholeBlood :=
  (C4_supplied_cd3_authoritative (METHODS Method.wholeBlood).cd3_estimate
    (METHODS Method.haemonetics).cd3_estimate 10 70 8 30 40 70
    Method.wholeBlood (by norm_num) (by norm_num)).1

/-- C5 as stated is false: at method Haemonetics, lymphocyte% = 30,
hematocrit = 50, the source computes the flow rate 43.7 mL/min (it derates
the WHOLE base flow), while the claimed formula — derating only the
lymphocyte-scaled span above `flowMin` — gives 45.7. -/
theorem C5_counterexample :
    (paramsOf (calculate_dli 1000000 70 8 30 50 Method.haemonetics)).map
        InstrumentParams.flow_rate = some (437 / 10) ∧
    specFlowRate 40 60 30 50 = 457 / 10 ∧
    (paramsOf (calculate_dli 1000000 70 8 30 50 Method.haemonetics)).map
        InstrumentParams.flow_rate ≠ some (specFlowRate 40 60 30 50) := by
  refine ⟨?_, by norm_num [specFlowRate], ?_⟩
  · norm_num [paramsOf, calculate_dli, dli_denom, dli_volume, cd3_conc,
      cd3_resolved, hct_efficiency, dli_params, METHODS]
    exact ⟨_, ⟨by decide, rfl⟩, by norm_num⟩
  · norm_num [paramsOf, calculate_dli, dli_denom, dli_volume, cd3_conc,
      cd3_resolved, hct_efficiency, dli_params, METHODS, specFlowRate]

/-- C5 amended: for every method with a declared flow-rate range, the
recommended flow rate applies the hematocrit derating factor to the whole
lymphocyte-interpolated base flow (including `flowMin`), then clamps:
`clamp((flowMin + (flowMax-flowMin)*(lymph/100)) * (1 - 0.2*(hct-40)/40),
flowMin, flowMax)`. -/
theorem C5_flow_rate_amended (m : Method) (d w t l h : ℚ)
    (p : InstrumentParams) (pr : ParamRanges)
    (hp : paramsOf (calculate_dli d w t l h m) = some p)
    (hpr : (METHODS m).params = some pr) :
    p.flow_rate = amendedFlowRate pr.flow_rate.1 pr.flow_rate.2 l h := by
  unfold paramsOf at hp
  by_cases hD : dli_denom m t l h = 0
  · simp [calculate_dli, hD] at hp
  · rw [calculate_dli_some d w hD] at hp
    simp only [Option.some_bind] at hp
    by_cases hm : m = Method.wholeBlood
    · subst hm
      simp [METHODS] at hpr
    · simp only [dli_params, if_neg hm, hpr] at hp
      injection hp with hp
      rw [← hp]
      simp [amendedFlowRate]

/-- Witness for the amended C5 at a concrete input: at Haemonetics,
lymphocyte% = 30, hematocrit = 50, the emitted flow rate 43.7 equals the
amended formula's value. -/
theorem C5_amended_witness :
    (437 / 10 : ℚ) = amendedFlowRate 40 60 30 50 := by
  have h := C5_flow_rate_amended Method.haemonetics 1000000 70 8 30 50
    { flow_rate := 437 / 10
      acd_ratio := 13
      plasma_removal := 10
      hct_efficiency := 17 / 20
      estimated_cd3 := 84 }
    { flow_rate := (40, 60)
      acd_ratio := (11, 13)
      plasma_removal := (5, 15) }
    (by
      norm_num [paramsOf, calculate_dli, dli_denom, dli_volume, cd3_conc,
        cd3_resolved, hct_efficiency, dli_params, METHODS]
      intro hcontra
      exact absurd hcontra (by decide))
    (by norm_num [METHODS])
  simpa using h

/-- C6: the source's RBC-contamination line divides the mL-valued volume by
0.5 (treating it as liters against the "0.5 L" normalization of its own
comment), so at Scenario A's inputs it reports 7000000/41 ≈ 170731.7 ×10⁹ —
exactly 1000 times the specification's `base*(hct/40)*(volumeMl/500)`
formula, which gives 7000/41 ≈ 170.7. -/
theorem C6_rbc_contamination_unit :
    volumeOf (calculate_dli 10000000 70 8 30 40 Method.wholeBlood) =
      some (70000 / 41) ∧
    rbcOf (calculate_dli 10000000 70 8 30 40 Method.wholeBlood) =
      some (7000000 / 41) ∧
    specRbcContamination 50 40 (70000 / 41) = 7000 / 41 ∧
    (7000000 / 41 : ℚ) = 1000 * (7000 / 41) := by
  refine ⟨?_, ?_, by norm_num [specRbcContamination], by norm_num⟩
  · norm_num [volumeOf, calculate_dli, dli_denom, dli_volume, cd3_conc,
      cd3_resolved, hct_efficiency, METHODS]
  · norm_num [rbcOf, calculate_dli, dli_denom, dli_volume, cd3_conc,
      cd3_resolved, hct_efficiency, METHODS]

/-- C7: for every request whose result carries instrument parameters, the
flow rate, the ACD-ratio denominator and the plasma removal each lie within
the method's declared inclusive `(min, max)` bound (the catalog declares no
interface-position range). -/
theorem C7_params_within_bounds (m : Method) (d w t l h : ℚ)
    (p : InstrumentParams) (pr : ParamRanges)
    (hp : paramsOf (calculate_dli d w t l h m) = some p)
    (hpr : (METHODS m).params = some pr) :
    (pr.flow_rate.1 ≤ p.flow_rate ∧ p.flow_rate ≤ pr.flow_rate.2) ∧
    (pr.acd_ratio.1 ≤ (p.acd_ratio : ℚ) ∧ (p.acd_ratio : ℚ) ≤ pr.acd_ratio.2) ∧
    (pr.plasma_removal.1 ≤ p.plasma_removal ∧
      p.plasma_removal ≤ pr.plasma_removal.2) := by
  unfold paramsOf at hp
  by_cases hD : dli_denom m t l h = 0
  · simp [calculate_dli, hD] at hp
  · rw [calculate_dli_some d w hD] at hp
    simp only [Option.some_bind] at hp
    cases m with
    | wholeBlood => simp [METHODS] at hpr
    | haemonetics =>
      simp only [METHODS, Option.some.injEq] at hpr
      subst hpr
      simp only [dli_params, METHODS,
        if_neg (by decide : ¬ Method.haemonetics = Method.wholeBlood),
        Option.some.injEq] at hp
      subst hp
      refine ⟨clamp_mem (by norm_num), ?_, ?_⟩ <;> split_ifs <;> norm_num
    | spectraOptia =>
      simp only [METHODS, Option.some.injEq] at hpr
      subst hpr
      simp only [dli_params, METHODS,
        if_neg (by decide : ¬ Method.spectraOptia = Method.wholeBlood),
        Option.some.injEq] at hp
      subst hp
      refine ⟨clamp_mem (by norm_num), ?_, ?_⟩ <;> split_ifs <;> norm_num

/-- Witness for C7 at a concrete input: at Haemonetics, lymphocyte% = 30,
hematocrit = 50, the emitted values 43.7, 13 and 10 all lie within the
declared ranges (40,60), (11,13) and (5,15). -/
theorem C7_witness :
    ((40 : ℚ) ≤ 437 / 10 ∧ (437 / 10 : ℚ) ≤ 60) ∧
    ((11 : ℚ) ≤ ((13 : ℤ) : ℚ) ∧ ((13 : ℤ) : ℚ) ≤ 13) ∧
    ((5 : ℚ) ≤ 10 ∧ (10 : ℚ) ≤ 15) :=
  C7_params_within_bounds Method.haemonetics 1000000 70 8 30 50
    { flow_rate := 437 / 10
      acd_ratio := 13
      plasma_removal := 10
      hct_efficiency := 17 / 20
      estimated_cd3 := 84 }
    { flow_rate := (40, 60)
      acd_ratio := (11, 13)
      plasma_removal := (5, 15) }
    (by
      norm_num [paramsOf, calculate_dli, dli_denom, dli_volume, cd3_conc,
        cd3_resolved, hct_efficiency, dli_params, METHODS]
      intro hcontra
      exact absurd hcontra (by decide))
    (by norm_num [METHODS])

/-- C8: the CD3% a result reports is exactly the method's linear model
`base + tlcWeight*(donorTlc/15) + lymphWeight*(lymphocytePercent/50)`
clamped into `[50, 95]`, and in particular always lies in `[50, 95]`. -/
theorem C8_cd3_estimate_clamped (m : Method) (d w t l h c : ℚ)
    (hc : cd3Of (calculate_dli d w t l h m) = some c) :
    c = min (max (specCd3Linear (cd3Triple m).1 (cd3Triple m).2.1
      (cd3Triple m).2.2 t l) 50) 95 ∧
    50 ≤ c ∧ c ≤ 95 := by
  unfold cd3Of at hc
  by_cases hD : dli_denom m t l h = 0
  · simp [calculate_dli, hD] at hc
  · rw [calculate_dli_some d w hD] at hc
    simp only [Option.map_some', Option.some.injEq] at hc
    rw [← hc]
    refine ⟨?_, (cd3_resolved_mem m t l).1, (cd3_resolved_mem m t l).2⟩
    cases m <;> simp [cd3_resolved, METHODS, specCd3Linear, cd3Triple]

/-- Witness for C8 at a concrete input: at Whole Blood, TLC = 8,
lymphocyte% = 30, the reported CD3% is `205/3 ≈ 68.3`, equal to the clamped
linear model value and within `[50, 95]`. -/
theorem C8_witness :
    (205 / 3 : ℚ) = min (max (specCd3Linear (cd3Triple Method.wholeBlood).1
      (cd3Triple Method.wholeBlood).2.1 (cd3Triple Method.wholeBlood).2.2
      8 30) 50) 95 ∧
    (50 : ℚ) ≤ 205 / 3 ∧ (205 / 3 : ℚ) ≤ 95 :=
  C8_cd3_estimate_clamped Method.wholeBlood 1000000 70 8 30 40 (205 / 3)
    (by norm_num [cd3Of, calculate_dli, dli_denom, dli_volume, cd3_conc,
      cd3_resolved, hct_efficiency, METHODS])

/-- C9: holding the method, the recipient weight and all donor parameters
fixed (all positive, with a positive hematocrit efficiency), a strictly
larger dose yields a strictly larger required volume. -/
theorem C9_dose_monotonic (m : Method) (d₁ d₂ w t l h v₁ v₂ : ℚ)
    (hw : 0 < w) (ht : 0 < t) (hl : 0 < l)
    (hh : 0 < hct_efficiency m h) (hd : d₁ < d₂)
    (h₁ : volumeOf (calculate_dli d₁ w t l h m) = some v₁)
    (h₂ : volumeOf (calculate_dli d₂ w t l h m) = some v₂) :
    v₁ < v₂ := by
  have hD := dli_denom_pos ht hl hh
  have hDne : dli_denom m t l h ≠ 0 := ne_of_gt hD
  unfold volumeOf at h₁ h₂
  rw [calculate_dli_some d₁ w hDne] at h₁
  rw [calculate_dli_some d₂ w hDne] at h₂
  simp only [Option.map_some', Option.some.injEq] at h₁ h₂
  rw [← h₁, ← h₂, dli_volume_factored, dli_volume_factored]
  have hk : 0 < w * (METHODS m).volume_factor / (dli_denom m t l h * 1000) :=
    div_pos (mul_pos hw (volume_factor_pos m))
      (mul_pos hD (by norm_num))
  exact mul_lt_mul_of_pos_right hd hk

/-- Witness for C9 at a concrete input: at Whole Blood, doubling the dose
from 10⁶ to 2·10⁶ cells/kg raises the volume from 7000/41 to 14000/41 mL. -/
theorem C9_witness : (7000 / 41 : ℚ) < 14000 / 41 :=
  C9_dose_monotonic Method.wholeBlood 1000000 2000000 70 8 30 40
    (7000 / 41) (14000 / 41)
    (by norm_num) (by norm_num) (by norm_num)
    (by norm_num [hct_efficiency, METHODS]) (by norm_num)
    (by norm_num [volumeOf, calculate_dli, dli_denom, dli_volume, cd3_conc,
      cd3_resolved, hct_efficiency, METHODS])
    (by norm_num [volumeOf, calculate_dli, dli_denom, dli_volume, cd3_conc,
      cd3_resolved, hct_efficiency, METHODS])

/-- C10: with a strictly sub-baseline hematocrit and a positive method
sensitivity, the hematocrit efficiency strictly exceeds 1 (it is not clamped
from above), and the resulting volume is strictly smaller than for the same
request at the 40% baseline hematocrit. -/
theorem C10_low_hct_boost (m : Method) (d w t l h v₁ v₂ : ℚ)
    (hdp : 0 < d) (hw : 0 < w) (ht : 0 < t) (hl : 0 < l)
    (hh40 : h < 40) (hs : 0 < (METHODS m).hct_impact)
    (h₁ : volumeOf (calculate_dli d w t l h m) = some v₁)
    (h₂ : volumeOf (calculate_dli d w t l 40 m) = some v₂) :
    1 < hct_efficiency m h ∧ v₁ < v₂ := by
  have hgt : 1 < hct_efficiency m h := by
    unfold hct_efficiency
    have hneg : (METHODS m).hct_impact * (h - 40) / 40 < 0 :=
      div_neg_of_neg_of_pos
        (mul_neg_of_pos_of_neg hs (by linarith)) (by norm_num)
    linarith
  have he40 : hct_efficiency m 40 = 1 := by
    simp [hct_efficiency]
  have hE : 0 < hct_efficiency m h := lt_trans one_pos hgt
  have hD1 : 0 < dli_denom m t l h := dli_denom_pos ht hl hE
  have hD2 : 0 < dli_denom m t l 40 :=
    dli_denom_pos ht hl (by rw [he40]; norm_num)
  refine ⟨hgt, ?_⟩
  unfold volumeOf at h₁ h₂
  rw [calculate_dli_some d w (ne_of_gt hD1)] at h₁
  rw [calculate_dli_some d w (ne_of_gt hD2)] at h₂
  simp only [Option.map_some', Option.some.injEq] at h₁ h₂
  rw [← h₁, ← h₂]
  have hform : ∀ X : ℚ, d * w / X * (METHODS m).volume_factor / 1000 =
      (d * w * (METHODS m).volume_factor / 1000) / X := by
    intro X
    ring
  have hCpos : 0 < cd3_conc t l (cd3_resolved m t l) * (METHODS m).efficiency :=
    mul_pos (cd3_conc_pos ht hl (cd3_resolved_pos m t l)) (efficiency_pos m)
  have hPpos : 0 < d * w * (METHODS m).volume_factor / 1000 := by
    have := volume_factor_pos m
    positivity
  have hDlt : dli_denom m t l 40 < dli_denom m t l h := by
    unfold dli_denom
    rw [he40, mul_one]
    exact (lt_mul_iff_one_lt_right hCpos).2 hgt
  unfold dli_volume
  rw [hform, hform]
  exact div_lt_div_of_pos_left hPpos hD2 hDlt

/-- Witness for C10 at a concrete input: at Whole Blood with hematocrit 30,
the efficiency factor is 1.05 > 1 and the volume 20000/123 mL is smaller
than the baseline-hematocrit volume 7000/41 mL. -/
theorem C10_witness :
    1 < hct_efficiency Method.wholeBlood 30 ∧
    (20000 / 123 : ℚ) < 7000 / 41 :=
  C10_low_hct_boost Method.wholeBlood 1000000 70 8 30 30
    (20000 / 123) (7000 / 41)
    (by norm_num) (by norm_num) (by norm_num) (by norm_num)
    (by norm_num) (by norm_num [METHODS])
    (by norm_num [volumeOf, calculate_dli, dli_denom, dli_volume, cd3_conc,
      cd3_resolved, hct_efficiency, METHODS])
    (by norm_num [volumeOf, calculate_dli, dli_denom, dli_volume, cd3_conc,
      cd3_resolved, hct_efficiency, METHODS])
